import Mathlib

/-!
Shallow embedding of Rocket's logging core
(src/core/lib/src/log.rs, src/core/lib/src/log_utils.rs).

The `log` crate's severity and filter types are embedded as inductives with
their numeric order; `RocketLogger::enabled`, `RocketLogger::log`,
`LogLevel::from_str`, `LogLevel::as_str`, the conversions to the two
backend filter types, `write_out!` and `init` are embedded as pure
functions.  Rendering output is modelled as a list of styled chunks
(text, color, bold) in the order the source writes them.
-/

namespace Rocket

/-- The `log` crate's `Level` enum: `Error < Warn < Info < Debug < Trace`. -/
inductive Level where
  | error
  | warn
  | info
  | debug
  | trace
deriving DecidableEq, Repr

/-- The `log` crate's numeric representation of `Level` (`Error = 1`, ..., `Trace = 5`),
used for its `Ord` instance. -/
def Level.toNat : Level → Nat
  | .error => 1
  | .warn => 2
  | .info => 3
  | .debug => 4
  | .trace => 5

/-- The `log` crate's `LevelFilter` enum: `Off < Error < Warn < Info < Debug < Trace`. -/
inductive LevelFilter where
  | off
  | error
  | warn
  | info
  | debug
  | trace
deriving DecidableEq, Repr

/-- Numeric representation of `LevelFilter` (`Off = 0`, ..., `Trace = 5`). -/
def LevelFilter.toNat : LevelFilter → Nat
  | .off => 0
  | .error => 1
  | .warn => 2
  | .info => 3
  | .debug => 4
  | .trace => 5

/-- The `log` crate's `LevelFilter::to_level`: `Off` has no corresponding level. -/
def LevelFilter.to_level : LevelFilter → Option Level
  | .off => none
  | .error => some .error
  | .warn => some .warn
  | .info => some .info
  | .debug => some .debug
  | .trace => some .trace

/-- The `tracing` crate's `LevelFilter` values, the second backend's native filter type. -/
inductive TracingLevelFilter where
  | OFF
  | ERROR
  | WARN
  | INFO
  | DEBUG
  | TRACE
deriving DecidableEq, Repr

/-- Rocket's `LogLevel` enum from `log_utils.rs`. -/
inductive LogLevel where
  | Critical
  | Normal
  | Debug
  | Off
deriving DecidableEq, Repr

/-- `impl From<LogLevel> for log::LevelFilter` (log_utils.rs lines 34-43). -/
def LogLevel.toLevelFilter : LogLevel → LevelFilter
  | .Critical => .warn
  | .Normal => .info
  | .Debug => .trace
  | .Off => .off

/-- `impl From<LogLevel> for tracing::level_filters::LevelFilter` (log_utils.rs lines 45-54). -/
def LogLevel.toTracingLevelFilter : LogLevel → TracingLevelFilter
  | .Critical => .WARN
  | .Normal => .INFO
  | .Debug => .TRACE
  | .Off => .OFF

/-- `LogLevel::as_str` (log_utils.rs lines 57-64). -/
def LogLevel.as_str : LogLevel → String
  | .Critical => "critical"
  | .Normal => "normal"
  | .Debug => "debug"
  | .Off => "off"

/-- `char::to_ascii_lowercase`: maps `A`-`Z` to `a`-`z`, leaves all else. -/
def asciiLowerChar (c : Char) : Char :=
  if 'A' ≤ c && c ≤ 'Z' then Char.ofNat (c.toNat + 32) else c

/-- `str::to_ascii_lowercase`. -/
def toAsciiLowercase (s : String) : String :=
  String.mk (s.data.map asciiLowerChar)

/-- `LogLevel::from_str` (log_utils.rs lines 70-80): lowercase the input, match
the four accepted words, otherwise error with a message naming the accepted set. -/
def LogLevel.from_str (s : String) : Except String LogLevel :=
  if toAsciiLowercase s = "critical" then .ok .Critical
  else if toAsciiLowercase s = "normal" then .ok .Normal
  else if toAsciiLowercase s = "debug" then .ok .Debug
  else if toAsciiLowercase s = "off" then .ok .Off
  else .error "a log level (off, debug, normal, critical)"

/-- `str::starts_with(prefix-string)`: raw character-prefix test. -/
def strStartsWith (s p : String) : Bool :=
  List.isPrefixOf p.data s.data

/-- `str::ends_with` (the source tests a single char, `'_'`). -/
def strEndsWith (s p : String) : Bool :=
  List.isSuffixOf p.data s.data

/-- `str::contains(substring)`: some contiguous run of `s` equals `pat`. -/
def strContains (s pat : String) : Bool :=
  (List.range (s.data.length + 1)).any fun i => List.isPrefixOf pat.data (s.data.drop i)

/-- The `log` crate's `Metadata`: a severity and a target string. -/
structure Metadata where
  level : Level
  target : String
deriving DecidableEq, Repr

/-- The `log` crate's `Record`: metadata plus module path, file, line, formatted args. -/
structure Record where
  metadata : Metadata
  module_path : Option String
  file : Option String
  line : Option Nat
  args : String
deriving DecidableEq, Repr

/-- `Record::level()` delegates to the metadata. -/
def Record.level (r : Record) : Level := r.metadata.level

/-- `Record::target()` delegates to the metadata. -/
def Record.target (r : Record) : String := r.metadata.target

/-- `is_launch_record` (log.rs lines 81-83): the target contains `"rocket::launch"`. -/
def is_launch_record (m : Metadata) : Bool :=
  strContains m.target "rocket::launch"

namespace RocketLogger

/-- `RocketLogger::enabled` (log.rs lines 88-93), with the process-wide
`log::max_level()` passed explicitly. -/
def enabled (max : LevelFilter) (m : Metadata) : Bool :=
  match max.to_level with
  | some maxLevel => Nat.ble m.level.toNat maxLevel.toNat || is_launch_record m
  | none => false

/-- The closure `from` inside `RocketLogger::log` (log.rs line 103):
`record.module_path().map_or(false, |m| m.starts_with(path))`. -/
def fromPath (r : Record) (path : String) : Bool :=
  (r.module_path.map fun m => strStartsWith m path).getD false

/-- `debug_only` inside `RocketLogger::log` (log.rs line 104). -/
def debug_only (r : Record) : Bool :=
  fromPath r "hyper" || fromPath r "rustls" || fromPath r "r2d2"

/-- The noisy-module guard of `RocketLogger::log` (log.rs line 105):
`log::LevelFilter::from(LogLevel::Debug) > max && debug_only`. -/
def noisyGuard (max : LevelFilter) (r : Record) : Bool :=
  Nat.blt max.toNat (LogLevel.toLevelFilter .Debug).toNat && debug_only r

/-- Which ANSI color a rendered chunk carries (`yansi::Paint`). -/
inductive Color where
  | default
  | red
  | yellow
  | blue
  | magenta
deriving DecidableEq, Repr

/-- One styled piece of output, in source order. -/
structure Chunk where
  text : String
  color : Color
  bold : Bool
deriving DecidableEq, Repr

/-- A plain (unstyled) chunk. -/
def plain (s : String) : Chunk := ⟨s, .default, false⟩

/-- The trailing newline chunk. -/
def nl : Chunk := plain "\n"

/-- The indentation marker written when the target ends in `'_'`
(log.rs line 112): three spaces, a bold default-color `">>"`, a space. -/
def indentChunks : List Chunk :=
  [plain "   ", ⟨">>", .default, true⟩, plain " "]

/-- `RocketLogger::log` (log.rs lines 95-152), as the ordered list of styled
chunks it writes; an early return writes nothing (`[]`). -/
def log (max : LevelFilter) (record : Record) : List Chunk :=
  if !enabled max record.metadata then []
  else if noisyGuard max record then []
  else
    let indented := strEndsWith record.target "_"
    let head := if indented then indentChunks else []
    let level := if is_launch_record record.metadata then Level.info else record.level
    head ++
      match level, indented with
      | .error, false =>
          [⟨"Error:", .red, true⟩, plain " ", ⟨record.args, .red, false⟩, nl]
      | .warn, false =>
          [⟨"Warning:", .yellow, true⟩, plain " ", ⟨record.args, .yellow, false⟩, nl]
      | .info, _ => [⟨record.args, .blue, false⟩, nl]
      | .trace, _ => [⟨record.args, .magenta, false⟩, nl]
      | .warn, _ => [⟨record.args, .yellow, false⟩, nl]
      | .error, _ => [⟨record.args, .red, false⟩, nl]
      | .debug, _ =>
          [plain "\n", ⟨"-->", .blue, true⟩, plain " "] ++
          (match record.file with
           | some f => [⟨f, .blue, false⟩]
           | none => []) ++
          (match record.line with
           | some line => [plain ":", ⟨toString line, .blue, false⟩, plain "\n"]
           | none => []) ++
          [plain "\t", plain record.args, nl]

end RocketLogger

/-- Which stream a `write_out!` attempt targets. -/
inductive Stream where
  | stdout
  | stderr
deriving DecidableEq, Repr

/-- One attempted write: the stream and the text handed to it. -/
structure WriteAttempt where
  stream : Stream
  content : String
deriving DecidableEq, Repr

/-- `write_out!` (log.rs lines 67-72): try stdout; on failure write the error's
text to stderr; discard any remaining failure (`let _ = ...`).  The two sinks
are passed as fallible writers; the result is the attempts made, paired with
the unit the caller sees — the codomain has no error component. -/
def write_out (stdoutW stderrW : String → Except String Unit) (s : String) :
    List WriteAttempt × Unit :=
  match stdoutW s with
  | .ok _ => ([⟨.stdout, s⟩], ())
  | .error e =>
    match stderrW e with
    | .ok _ => ([⟨.stdout, s⟩, ⟨.stderr, e⟩], ())
    | .error _ => ([⟨.stdout, s⟩, ⟨.stderr, e⟩], ())

/-- The configuration shape `init` consumes: `log_level` and `cli_colors`. -/
structure Config where
  log_level : LogLevel
  cli_colors : Bool
deriving DecidableEq, Repr

/-- The process-wide state `init` manipulates: whether `log::set_boxed_logger`
has succeeded (the `log` crate's global), the `ROCKET_LOGGER_SET` static, the
`log::max_level()` value, and yansi's paint-enabled flag. -/
structure GlobalState where
  logger_set : Bool
  rocket_logger_set : Bool
  max_level : LevelFilter
  paint_enabled : Bool
deriving DecidableEq, Repr

/-- The state before any `init`: no logger, flag false, `max_level` is the
`log` crate's default `Off`, paint enabled. -/
def freshState : GlobalState :=
  { logger_set := false, rocket_logger_set := false, max_level := .off, paint_enabled := true }

/-- `init` (log.rs lines 167-189): try to install the boxed logger (succeeds only
once process-wide), record success in the static; disable paint if colors are
off in config or Windows ANSI is unavailable; then, whenever the static is set
(also on later calls), disable paint if stdout is not a TTY and set the max
level from this call's config.  Returns the new state; the source returns `()`
and has no error path. -/
def init (config : Config) (windowsAscii stdoutIsTerminal : Bool)
    (st : GlobalState) : GlobalState :=
  let st1 :=
    if !st.logger_set then
      { st with logger_set := true, rocket_logger_set := true }
    else st
  let st2 :=
    if !config.cli_colors || !windowsAscii then { st1 with paint_enabled := false } else st1
  if st2.rocket_logger_set then
    let st3 := if !stdoutIsTerminal then { st2 with paint_enabled := false } else st2
    { st3 with max_level := config.log_level.toLevelFilter }
  else st2

/-! ## Theorems -/

/-- Claim C3: parsing the displayed text round-trips — for each of the four
`LogLevel` values, `from_str (as_str x)` succeeds and returns `x`. -/
theorem logLevel_display_parse_roundtrip (l : LogLevel) :
    LogLevel.from_str (LogLevel.as_str l) = .ok l := by
  cases l <;> rfl

/-- Claim C7: `LogLevel::from_str` succeeds on every casing variant of the four
accepted words (any string whose ASCII-lowercasing equals one of them, which is
exactly the test the source performs), and every other string fails with the
error message naming the four accepted words — and that message does contain
each of `off`, `debug`, `normal`, `critical`. -/
theorem from_str_accepts_exactly_four_words (s : String) :
    (toAsciiLowercase s = "critical" → LogLevel.from_str s = .ok .Critical) ∧
    (toAsciiLowercase s = "normal" → LogLevel.from_str s = .ok .Normal) ∧
    (toAsciiLowercase s = "debug" → LogLevel.from_str s = .ok .Debug) ∧
    (toAsciiLowercase s = "off" → LogLevel.from_str s = .ok .Off) ∧
    (toAsciiLowercase s ≠ "critical" → toAsciiLowercase s ≠ "normal" →
      toAsciiLowercase s ≠ "debug" → toAsciiLowercase s ≠ "off" →
      LogLevel.from_str s = .error "a log level (off, debug, normal, critical)" ∧
      strContains "a log level (off, debug, normal, critical)" "off" = true ∧
      strContains "a log level (off, debug, normal, critical)" "debug" = true ∧
      strContains "a log level (off, debug, normal, critical)" "normal" = true ∧
      strContains "a log level (off, debug, normal, critical)" "critical" = true) := by
  refine ⟨fun h => ?_, fun h => ?_, fun h => ?_, fun h => ?_, fun h1 h2 h3 h4 => ?_⟩
  · simp [LogLevel.from_str, h]
  · simp [LogLevel.from_str, h]
  · simp [LogLevel.from_str, h]
  · simp [LogLevel.from_str, h]
  · exact ⟨by simp [LogLevel.from_str, h1, h2, h3, h4], by decide, by decide, by decide, by decide⟩

/-- Witness for C7: the casing variant `"DeBuG"` parses to `Debug`, and the
non-word `"warn"` fails with the message naming the accepted set. -/
theorem from_str_accepts_exactly_four_words_witness :
    LogLevel.from_str "DeBuG" = .ok .Debug ∧
    LogLevel.from_str "warn" = .error "a log level (off, debug, normal, critical)" :=
  ⟨(from_str_accepts_exactly_four_words "DeBuG").2.2.1 (by decide),
   ((from_str_accepts_exactly_four_words "warn").2.2.2.2
      (by decide) (by decide) (by decide) (by decide)).1⟩

/-- Counterexample to claim C1 as stated: at active level `Off`, an event whose
target contains the launch-channel marker is NOT enabled — `max_level().to_level()`
is `None` for `Off`, so `enabled` returns `false` for every event. -/
theorem enabled_off_launch_counterexample :
    RocketLogger.enabled (LogLevel.toLevelFilter .Off)
      ⟨.info, "rocket::launch"⟩ = false := by decide

/-- Claim C1 (amended): a launch-marked event passes the filter at every active
level other than `Off`, regardless of severity; at `Off` every event — launch
channel included — is suppressed, so in particular a non-launch `Info` event at
`Off` is suppressed. -/
theorem enabled_launch_amended (l : LogLevel) (m : Metadata) :
    (l ≠ .Off → is_launch_record m = true →
      RocketLogger.enabled (LogLevel.toLevelFilter l) m = true) ∧
    RocketLogger.enabled (LogLevel.toLevelFilter .Off) m = false := by
  constructor
  · intro hl hm
    cases l
    · simp [RocketLogger.enabled, LogLevel.toLevelFilter, LevelFilter.to_level, hm]
    · simp [RocketLogger.enabled, LogLevel.toLevelFilter, LevelFilter.to_level, hm]
    · simp [RocketLogger.enabled, LogLevel.toLevelFilter, LevelFilter.to_level, hm]
    · exact absurd rfl hl
  · simp [RocketLogger.enabled, LogLevel.toLevelFilter, LevelFilter.to_level]

/-- Witness for C1 (amended): a `Trace`-severity launch event is enabled at
`Normal`, and a launch-marked `Info` event is suppressed at `Off`. -/
theorem enabled_launch_amended_witness :
    RocketLogger.enabled (LogLevel.toLevelFilter .Normal) ⟨.trace, "rocket::launch"⟩ = true ∧
    RocketLogger.enabled (LogLevel.toLevelFilter .Off) ⟨.info, "rocket::launch"⟩ = false :=
  ⟨(enabled_launch_amended .Normal ⟨.trace, "rocket::launch"⟩).1 (by decide) (by decide),
   (enabled_launch_amended .Normal ⟨.info, "rocket::launch"⟩).2⟩

/-- Counterexample to claim C2 as stated: after `init` with `Normal` then `init`
with `Debug`, the active threshold is `Debug`'s filter (`Trace`), not the
previously active `Normal` filter (`Info`) — the second call does change it. -/
theorem init_twice_counterexample :
    (init ⟨.Debug, true⟩ true true (init ⟨.Normal, true⟩ true true freshState)).max_level
        = LogLevel.toLevelFilter .Debug ∧
    LogLevel.toLevelFilter .Debug ≠ LogLevel.toLevelFilter .Normal := by decide

/-- Claim C2 (amended): a second `init` call returns normally (the embedding is a
total function on states, mirroring the source's error-free `()` return), but it
does NOT leave the previous threshold in place: because the `ROCKET_LOGGER_SET`
static remains `true`, the second call sets the active threshold to the second
configuration's `log_level`. -/
theorem init_twice_amended (l1 l2 : LogLevel) (b1 b2 wa1 t1 wa2 t2 : Bool) :
    (init ⟨l2, b2⟩ wa2 t2 (init ⟨l1, b1⟩ wa1 t1 freshState)).max_level
      = LogLevel.toLevelFilter l2 := by
  cases b1 <;> cases b2 <;> cases wa1 <;> cases t1 <;> cases wa2 <;> cases t2 <;> rfl

/-- Helper: every severity's numeric value is at most 5 (`Trace`). -/
theorem level_toNat_le_five (l : Level) : Nat.ble l.toNat 5 = true := by
  cases l <;> rfl

/-- Helper: when an event passes the `enabled` filter and the noisy-module guard
does not fire, `RocketLogger::log` writes at least one chunk. -/
theorem log_ne_nil (max : LevelFilter) (r : Record)
    (he : RocketLogger.enabled max r.metadata = true)
    (hn : RocketLogger.noisyGuard max r = false) :
    RocketLogger.log max r ≠ [] := by
  simp only [RocketLogger.log, he, hn, Bool.not_true, Bool.false_eq_true, if_false]
  cases hind : strEndsWith r.metadata.target "_" <;>
    cases hl : is_launch_record r.metadata <;>
    cases hlv : r.metadata.level <;>
    simp [Record.target, Record.level, hind, hl, hlv, RocketLogger.indentChunks]

/-- Claim C5: an event whose module path starts with one of the fixed prefixes
`hyper`, `rustls`, `r2d2` is suppressed entirely when the active `LogLevel` is
`Normal` or `Critical`, and is shown when it is `Debug`. -/
theorem noisy_module_suppression (r : Record) (m : String)
    (hmp : r.module_path = some m)
    (hpre : (strStartsWith m "hyper" || strStartsWith m "rustls" || strStartsWith m "r2d2")
      = true) :
    RocketLogger.log (LogLevel.toLevelFilter .Normal) r = [] ∧
    RocketLogger.log (LogLevel.toLevelFilter .Critical) r = [] ∧
    RocketLogger.log (LogLevel.toLevelFilter .Debug) r ≠ [] := by
  have hdo : RocketLogger.debug_only r = true := by
    simp only [RocketLogger.debug_only, RocketLogger.fromPath, hmp, Option.map_some,
      Option.getD_some]
    exact hpre
  refine ⟨?_, ?_, ?_⟩
  · cases he : RocketLogger.enabled (LogLevel.toLevelFilter .Normal) r.metadata <;>
      simp [RocketLogger.log, he, RocketLogger.noisyGuard, hdo, LogLevel.toLevelFilter,
        LevelFilter.toNat]
  · cases he : RocketLogger.enabled (LogLevel.toLevelFilter .Critical) r.metadata <;>
      simp [RocketLogger.log, he, RocketLogger.noisyGuard, hdo, LogLevel.toLevelFilter,
        LevelFilter.toNat]
  · apply log_ne_nil
    · cases hlv : r.metadata.level <;>
        simp [RocketLogger.enabled, LogLevel.toLevelFilter, LevelFilter.to_level, hlv,
          Level.toNat]
    · simp [RocketLogger.noisyGuard, LogLevel.toLevelFilter, LevelFilter.toNat, Nat.blt]

/-- Witness for C5: an `Error` event from module `rustls::conn` is suppressed at
`Normal` and `Critical` and shown at `Debug`. -/
theorem noisy_module_suppression_witness :
    RocketLogger.log (LogLevel.toLevelFilter .Normal)
      ⟨⟨.error, "rustls::conn"⟩, some "rustls::conn", none, none, "handshake"⟩ = [] ∧
    RocketLogger.log (LogLevel.toLevelFilter .Critical)
      ⟨⟨.error, "rustls::conn"⟩, some "rustls::conn", none, none, "handshake"⟩ = [] ∧
    RocketLogger.log (LogLevel.toLevelFilter .Debug)
      ⟨⟨.error, "rustls::conn"⟩, some "rustls::conn", none, none, "handshake"⟩ ≠ [] :=
  noisy_module_suppression
    ⟨⟨.error, "rustls::conn"⟩, some "rustls::conn", none, none, "handshake"⟩
    "rustls::conn" rfl (by decide)

/-- Claim C10: the noisy-module test is a raw character-prefix match on the
module path — any module path that merely starts with the characters `hyper`,
`rustls` or `r2d2` (e.g. the unrelated crate `hyperlink`) is suppressed whenever
the active `LogLevel` is anything less verbose than `Debug`. -/
theorem noisy_prefix_raw_char_match (l : LogLevel) (r : Record) (m : String)
    (hne : l ≠ .Debug)
    (hmp : r.module_path = some m)
    (hpre : (strStartsWith m "hyper" || strStartsWith m "rustls" || strStartsWith m "r2d2")
      = true) :
    RocketLogger.log (LogLevel.toLevelFilter l) r = [] := by
  have hdo : RocketLogger.debug_only r = true := by
    simp only [RocketLogger.debug_only, RocketLogger.fromPath, hmp, Option.map_some,
      Option.getD_some]
    exact hpre
  cases l
  · cases he : RocketLogger.enabled (LogLevel.toLevelFilter .Critical) r.metadata <;>
      simp [RocketLogger.log, he, RocketLogger.noisyGuard, hdo, LogLevel.toLevelFilter,
        LevelFilter.toNat]
  · cases he : RocketLogger.enabled (LogLevel.toLevelFilter .Normal) r.metadata <;>
      simp [RocketLogger.log, he, RocketLogger.noisyGuard, hdo, LogLevel.toLevelFilter,
        LevelFilter.toNat]
  · exact absurd rfl hne
  · simp [RocketLogger.log, RocketLogger.enabled, LogLevel.toLevelFilter, LevelFilter.to_level]

/-- Witness for C10: an `Error` event from the unrelated module path
`hyperlink::fetch` is suppressed at active level `Normal`. -/
theorem noisy_prefix_raw_char_match_witness :
    RocketLogger.log (LogLevel.toLevelFilter .Normal)
      ⟨⟨.error, "hyperlink::fetch"⟩, some "hyperlink::fetch", none, none, "oops"⟩ = [] :=
  noisy_prefix_raw_char_match .Normal
    ⟨⟨.error, "hyperlink::fetch"⟩, some "hyperlink::fetch", none, none, "oops"⟩
    "hyperlink::fetch" (by decide) rfl (by decide)

/-- Claim C8: at active level `Normal`, for a non-launch event not matching a
noisy-module prefix: an `Error` event is emitted, a `Debug` event is suppressed,
a `Trace` event is suppressed; and `Normal` maps to the `Info` threshold in both
backends' native filter types. -/
theorem normal_level_filtering (r : Record)
    (hlaunch : is_launch_record r.metadata = false)
    (hnoisy : RocketLogger.debug_only r = false) :
    (r.level = .error → RocketLogger.log (LogLevel.toLevelFilter .Normal) r ≠ []) ∧
    (r.level = .debug → RocketLogger.log (LogLevel.toLevelFilter .Normal) r = []) ∧
    (r.level = .trace → RocketLogger.log (LogLevel.toLevelFilter .Normal) r = []) ∧
    LogLevel.toLevelFilter .Normal = .info ∧
    LogLevel.toTracingLevelFilter .Normal = .INFO := by
  simp only [Record.level] at *
  refine ⟨fun h => ?_, fun h => ?_, fun h => ?_, rfl, rfl⟩
  · apply log_ne_nil
    · simp [RocketLogger.enabled, LogLevel.toLevelFilter, LevelFilter.to_level, h,
        Level.toNat]
    · simp [RocketLogger.noisyGuard, hnoisy]
  · simp [RocketLogger.log, RocketLogger.enabled, LogLevel.toLevelFilter,
      LevelFilter.to_level, h, Level.toNat, hlaunch]
  · simp [RocketLogger.log, RocketLogger.enabled, LogLevel.toLevelFilter,
      LevelFilter.to_level, h, Level.toNat, hlaunch]

/-- Witness for C8: with target `app` (non-launch, no module path), an `Error`
event is emitted and a `Debug` event is suppressed at `Normal`. -/
theorem normal_level_filtering_witness :
    RocketLogger.log (LogLevel.toLevelFilter .Normal)
      ⟨⟨.error, "app"⟩, none, none, none, "boom"⟩ ≠ [] ∧
    RocketLogger.log (LogLevel.toLevelFilter .Normal)
      ⟨⟨.debug, "app"⟩, none, none, none, "dbg"⟩ = [] :=
  ⟨(normal_level_filtering ⟨⟨.error, "app"⟩, none, none, none, "boom"⟩
      (by decide) (by decide)).1 (by decide),
   (normal_level_filtering ⟨⟨.debug, "app"⟩, none, none, none, "dbg"⟩
      (by decide) (by decide)).2.1 (by decide)⟩

/-- Claim C4: a launch-marked event of physical severity `Warn` that is emitted
renders with the `Info` visual style — the body chunk is blue and no bold
`"Warning:"` prefix chunk appears — while the severity on the record itself is
unchanged (records are immutable values here, mirroring that the source only
shadows a local `level` and never touches `record.level()`). -/
theorem launch_warn_renders_info (max : LevelFilter) (r : Record)
    (hlaunch : is_launch_record r.metadata = true)
    (hwarn : r.level = .warn)
    (he : RocketLogger.enabled max r.metadata = true)
    (hn : RocketLogger.noisyGuard max r = false) :
    RocketLogger.log max r =
      (if strEndsWith r.target "_" then RocketLogger.indentChunks else []) ++
        [⟨r.args, .blue, false⟩, RocketLogger.nl] ∧
    (RocketLogger.log max r).all
      (fun c => !(c.bold && c.text == "Warning:")) = true ∧
    r.level = .warn := by
  have hmain : RocketLogger.log max r =
      (if strEndsWith r.target "_" then RocketLogger.indentChunks else []) ++
        [⟨r.args, .blue, false⟩, RocketLogger.nl] := by
    simp only [RocketLogger.log, he, hn, Bool.not_true, Bool.false_eq_true, if_false, hlaunch]
    cases hind : strEndsWith r.metadata.target "_" <;> simp [Record.target, hind]
  refine ⟨hmain, ?_, hwarn⟩
  rw [hmain]
  cases hind : strEndsWith r.target "_" <;>
    simp [hind, RocketLogger.indentChunks, RocketLogger.nl, RocketLogger.plain]

/-- Witness for C4: a launch-marked `Warn` event at active level `Normal`
renders as a blue body with no prefix. -/
theorem launch_warn_renders_info_witness :
    RocketLogger.log (LogLevel.toLevelFilter .Normal)
        ⟨⟨.warn, "rocket::launch"⟩, none, none, none, "Hi"⟩ =
      [⟨"Hi", .blue, false⟩, RocketLogger.nl] := by
  exact (launch_warn_renders_info (LogLevel.toLevelFilter .Normal)
    ⟨⟨.warn, "rocket::launch"⟩, none, none, none, "Hi"⟩
    (by decide) (by decide) (by decide) (by decide)).1

/-- Counterexample to claim C6 as stated: a `Warn` event whose target is exactly
`"rocket::launch"` (so it does NOT end with the reserved `'_'` suffix) is
rendered WITHOUT the bold `"Warning:"` prefix, because the launch-channel
downgrade displays it as `Info` — refuting the claim's universally quantified
second half. -/
theorem indent_suffix_counterexample :
    RocketLogger.log (LogLevel.toLevelFilter .Normal)
        ⟨⟨.warn, "rocket::launch"⟩, none, none, none, "problem"⟩ =
      [⟨"problem", .blue, false⟩, RocketLogger.nl] ∧
    (RocketLogger.log (LogLevel.toLevelFilter .Normal)
        ⟨⟨.warn, "rocket::launch"⟩, none, none, none, "problem"⟩).all
      (fun c => !(c.bold && c.text == "Warning:")) = true := by decide

/-- Claim C6 (amended): restricted to NON-launch events (for launch-channel
`Warn` events the non-suffixed variant also lacks the prefix, since it is
displayed as `Info`): an emitted `Error`/`Warn` event whose target ends with the
reserved `'_'` suffix renders beginning with the three-space / bold `">>"`
indentation chunks and with no bold `"Error:"`/`"Warning:"` prefix chunk, while
the otherwise-identical event whose target lacks the suffix renders with that
bold prefix and no bold `">>"` marker. -/
theorem indent_suffix_amended (max : LevelFilter) (r : Record)
    (hlaunch : is_launch_record r.metadata = false)
    (hlv : r.level = .error ∨ r.level = .warn)
    (he : RocketLogger.enabled max r.metadata = true)
    (hn : RocketLogger.noisyGuard max r = false) :
    (strEndsWith r.target "_" = true →
      RocketLogger.log max r = RocketLogger.indentChunks ++
        [⟨r.args, if r.level = .error then .red else .yellow, false⟩, RocketLogger.nl] ∧
      (RocketLogger.log max r).all
        (fun c => !(c.bold && (c.text == "Error:" || c.text == "Warning:"))) = true) ∧
    (strEndsWith r.target "_" = false →
      RocketLogger.log max r =
        [⟨if r.level = .error then "Error:" else "Warning:",
          if r.level = .error then .red else .yellow, true⟩,
         RocketLogger.plain " ",
         ⟨r.args, if r.level = .error then .red else .yellow, false⟩, RocketLogger.nl] ∧
      (RocketLogger.log max r).all
        (fun c => !(c.bold && c.text == ">>")) = true) := by
  rcases hlv with h | h <;>
    simp only [Record.level] at h <;>
    refine ⟨fun hind => ?_, fun hind => ?_⟩ <;>
    simp only [Record.target] at hind <;>
    simp [RocketLogger.log, he, hn, hlaunch, h, hind, Record.target, Record.level,
      RocketLogger.indentChunks, RocketLogger.nl, RocketLogger.plain]

/-- Witness for C6 (amended): at active level `Normal`, a suffixed non-launch
`Warn` event renders indented with no prefix, and the unsuffixed one renders
with the bold `"Warning:"` prefix. -/
theorem indent_suffix_amended_witness :
    RocketLogger.log (LogLevel.toLevelFilter .Normal)
        ⟨⟨.warn, "app::_"⟩, none, none, none, "w"⟩ =
      RocketLogger.indentChunks ++ [⟨"w", .yellow, false⟩, RocketLogger.nl] ∧
    RocketLogger.log (LogLevel.toLevelFilter .Normal)
        ⟨⟨.warn, "app"⟩, none, none, none, "w"⟩ =
      [⟨"Warning:", .yellow, true⟩, RocketLogger.plain " ",
       ⟨"w", .yellow, false⟩, RocketLogger.nl] := by
  constructor
  · exact ((indent_suffix_amended (LogLevel.toLevelFilter .Normal)
      ⟨⟨.warn, "app::_"⟩, none, none, none, "w"⟩
      (by decide) (Or.inr (by decide)) (by decide) (by decide)).1 (by decide)).1
  · exact ((indent_suffix_amended (LogLevel.toLevelFilter .Normal)
      ⟨⟨.warn, "app"⟩, none, none, none, "w"⟩
      (by decide) (Or.inr (by decide)) (by decide) (by decide)).2 (by decide)).1

/-- Claim C9: the `write_out!` path is total and surfaces no error to the caller
(its codomain carries only the attempted writes and a unit): a successful
primary write touches only stdout; a failed primary write causes a fallback
write of the error's text to stderr; and the result — including the unit the
caller sees — is the same whether or not that fallback itself fails, i.e. a
fallback failure is silently dropped. -/
theorem write_out_never_fails (stdoutW stderrW : String → Except String Unit) (s : String) :
    (write_out stdoutW stderrW s).2 = () ∧
    (∀ u, stdoutW s = .ok u → (write_out stdoutW stderrW s).1 = [⟨.stdout, s⟩]) ∧
    (∀ e, stdoutW s = .error e →
      (write_out stdoutW stderrW s).1 = [⟨.stdout, s⟩, ⟨.stderr, e⟩]) := by
  refine ⟨Subsingleton.elim _ _, fun u h => ?_, fun e h => ?_⟩
  · simp [write_out, h]
  · cases h2 : stderrW e <;> simp [write_out, h, h2]

/-- Witness for C9: with both sinks failing, the rendered line is attempted on
stdout, the error text is attempted on stderr, and nothing escapes. -/
theorem write_out_never_fails_witness :
    (write_out (fun _ => .error "no stdout") (fun _ => .error "no stderr") "line").1
      = [⟨.stdout, "line"⟩, ⟨.stderr, "no stdout"⟩] :=
  (write_out_never_fails (fun _ => .error "no stdout")
    (fun _ => .error "no stderr") "line").2.2 "no stdout" rfl

end Rocket
